import Mathlib

/-!
Shallow embedding of the Client Health Scoring Engine of
`backend/services/client_health.py`, together with the listing endpoint
`list_health_scores` of `backend/api/routes/clients.py`.

The engine reads six aggregate signals per client from a backing store
(last-communication recency, task counts grouped by status, overdue-task
count, recent-digest count, estimated cost for the current month, and
overdue-follow-up count) and combines them through five pure factor
functions and one result assembler.  We model one backing-store snapshot
as the family of query results both code paths read, keyed by client id,
with `none` / `0` standing for the absent-row case of each query.

Python `int` is modelled as `ℤ`, SQL `COUNT` results as `ℕ`, currency
amounts as `ℚ`, and `int(completed / total * 20)` (truncation of a
non-negative quotient) as `ℕ` division, which is its exact value.
-/

namespace ClientHealth

/-- Task statuses, from `backend/db/models.py` (`TaskStatus`). -/
inductive TaskStatus where
  | pending
  | in_progress
  | completed
deriving DecidableEq, Repr

/-- The slice of the `Client` model the engine reads: identity, display
name and the optional monthly budget (`backend/db/models.py`). -/
structure Client where
  id : ℤ
  name : String
  monthly_budget : Option ℚ
deriving DecidableEq, Repr

/-- The three risk buckets of `_build_result`. -/
inductive RiskLevel where
  | healthy
  | warning
  | at_risk
deriving DecidableEq, Repr

/-- The five factor contributions, the `factors` sub-dict of the result. -/
structure Factors where
  communication : ℤ
  tasks : ℤ
  digests : ℤ
  profitability : ℤ
  followups : ℤ
deriving DecidableEq, Repr

/-- The output dict built by `_build_result`. -/
structure HealthScoreResult where
  client_id : ℤ
  client_name : String
  score : ℤ
  factors : Factors
  risk_level : RiskLevel
deriving DecidableEq, Repr

/-- Python's two-argument `max` builtin on integers. -/
def pymax (a b : ℤ) : ℤ := if a ≤ b then b else a

/-- Python's two-argument `min` builtin on integers. -/
def pymin (a b : ℤ) : ℤ := if a ≤ b then a else b

/-- Communication score (25 pts) based on days since last contact;
`_comm_score_from_days` in the source. -/
def _comm_score_from_days : Option ℤ → ℤ
  | none => 0
  | some days_since =>
    if days_since ≤ 3 then 25
    else if days_since ≤ 7 then 20
    else if days_since ≤ 14 then 15
    else if days_since ≤ 30 then 8
    else 0

/-- Task completion score (25 pts); `_task_score_from_counts` in the
source.  `int(completed / total * 20)` truncates the non-negative
quotient, which is exactly `ℕ` division; `max(0, score - min(overdue*3,
10))` on non-negative operands is truncated `ℕ` subtraction, kept here
in `ℤ` with an explicit `max` to mirror the source line. -/
def _task_score_from_counts (total completed overdue : ℕ) : ℤ :=
  if total = 0 then 15
  else
    let base : ℕ := 20 * completed / total
    if overdue = 0 then (base : ℤ) + 5
    else pymax 0 ((base : ℤ) - pymin (3 * (overdue : ℤ)) 10)

/-- Digest coverage score (15 pts); `_digest_score_from_count`. -/
def _digest_score_from_count (digest_count : ℕ) : ℤ :=
  pymin (pymin (digest_count : ℤ) 4 * 4) 15

/-- Profitability score (20 pts); `_profit_score_from_cost`.  The Python
guard `not monthly_budget or monthly_budget <= 0` is true exactly when
the budget is `None`, `0`, or negative. -/
def _profit_score_from_cost (monthly_budget : Option ℚ) (estimated_cost : ℚ) : ℤ :=
  match monthly_budget with
  | none => 10
  | some b =>
    if b ≤ 0 then 10
    else
      let r := estimated_cost / b
      if r ≤ 7/10 then 20
      else if r ≤ 9/10 then 15
      else if r ≤ 1 then 10
      else if r ≤ 6/5 then 5
      else 0

/-- Follow-up compliance score (15 pts); `_followup_score_from_overdue`. -/
def _followup_score_from_overdue (overdue_followups : ℕ) : ℤ :=
  if overdue_followups = 0 then 15
  else if overdue_followups ≤ 2 then 8
  else 0

/-- Result assembler `_build_result`: sums the five factors, clamps to
`[0, 100]` and buckets the clamped total into a risk level. -/
def _build_result (client_id : ℤ) (client_name : String)
    (comm tasks digests profit followups : ℤ) : HealthScoreResult :=
  let total := comm + tasks + digests + profit + followups
  let clamped := pymax 0 (pymin 100 total)
  ⟨client_id, client_name, clamped,
    ⟨comm, tasks, digests, profit, followups⟩,
    if 70 ≤ clamped then RiskLevel.healthy
    else if 40 ≤ clamped then RiskLevel.warning
    else RiskLevel.at_risk⟩

/-- One backing-store snapshot: the results of the six aggregate queries
both evaluators issue, keyed by client id.  `last_comm_days` is the
days-since component of `max(occurred_at)` relative to the shared `now`
(`none` when the client has no communication rows); `task_status_counts`
is the grouped-by-status count dict (absent statuses count `0`);
the remaining four are the per-client grouped rows, `none` when the
group-by produced no row for that client (the code reads them with a
`or 0` / `.get(cid, 0)` default). -/
structure Snapshot where
  last_comm_days : ℤ → Option ℤ
  task_status_counts : ℤ → TaskStatus → ℕ
  overdue_row : ℤ → Option ℕ
  digest_row : ℤ → Option ℕ
  cost_row : ℤ → Option ℚ
  followup_row : ℤ → Option ℕ

/-- `sum(task_map.values())`: total tasks across the three statuses. -/
def total_task_count (counts : TaskStatus → ℕ) : ℕ :=
  counts TaskStatus.pending + counts TaskStatus.in_progress + counts TaskStatus.completed

/-- Truthiness-plus-sign guard `client.monthly_budget and
client.monthly_budget > 0` used by `compute_health` to decide whether to
run the cost query. -/
def budget_is_positive : Option ℚ → Bool
  | none => false
  | some b => decide (0 < b)

/-- Single-client evaluator `compute_health`.  Mirrors the source's
control flow: the overdue-task query only runs when `total_tasks > 0`
(otherwise `overdue = 0`), and the cost query only runs when the budget
is set and positive (otherwise `estimated_cost = 0`). -/
def compute_health (snap : Snapshot) (client : Client) : HealthScoreResult :=
  let days_since := snap.last_comm_days client.id
  let comm_score := _comm_score_from_days days_since
  let counts := snap.task_status_counts client.id
  let total_tasks := total_task_count counts
  let completed := counts TaskStatus.completed
  let overdue := if 0 < total_tasks then (snap.overdue_row client.id).getD 0 else 0
  let task_score := _task_score_from_counts total_tasks completed overdue
  let digest_score := _digest_score_from_count ((snap.digest_row client.id).getD 0)
  let estimated_cost :=
    if budget_is_positive client.monthly_budget then (snap.cost_row client.id).getD 0 else 0
  let profit_score := _profit_score_from_cost client.monthly_budget estimated_cost
  let followup_score := _followup_score_from_overdue ((snap.followup_row client.id).getD 0)
  _build_result client.id client.name
    comm_score task_score digest_score profit_score followup_score

/-- The value `client_name_map[cid]` / `client_budget_map[cid]`: a dict
comprehension over the input list keyed by id keeps, for each id, the
last list element bearing it. -/
def lookup_client (clients : List Client) (cid : ℤ) : Option Client :=
  clients.reverse.find? (fun x => x.id == cid)

/-- The body of the assembly loop `for cid in client_ids` of
`compute_health_batch`: every grouped lookup defaults a missing row to
the zero/absent value, and the client's name and budget are read from
the last-wins id-keyed maps built over the whole input list. -/
def batch_entry (snap : Snapshot) (clients : List Client) (c : Client) :
    HealthScoreResult :=
  let rep := (lookup_client clients c.id).getD c
  let comm := _comm_score_from_days (snap.last_comm_days c.id)
  let counts := snap.task_status_counts c.id
  let total_tasks := total_task_count counts
  let completed := counts TaskStatus.completed
  let overdue := (snap.overdue_row c.id).getD 0
  let tasks := _task_score_from_counts total_tasks completed overdue
  let digests := _digest_score_from_count ((snap.digest_row c.id).getD 0)
  let estimated_cost := (snap.cost_row c.id).getD 0
  let profit := _profit_score_from_cost rep.monthly_budget estimated_cost
  let followups := _followup_score_from_overdue ((snap.followup_row c.id).getD 0)
  _build_result c.id rep.name comm tasks digests profit followups

/-- Batch evaluator `compute_health_batch`: early-returns `[]` on an
empty input, builds the id-keyed maps, and assembles one result per
input id in input order. -/
def compute_health_batch (snap : Snapshot) (clients : List Client) :
    List HealthScoreResult :=
  if clients.isEmpty then []
  else clients.map (batch_entry snap clients)

/-- Number of aggregate queries `compute_health_batch` issues, read off
its control flow: the empty-input early return happens before any of the
six batch queries run; otherwise exactly six run. -/
def batch_query_count (clients : List Client) : ℕ :=
  if clients.isEmpty then 0 else 6

/-- The `/health-scores` endpoint body (`list_health_scores` in
`backend/api/routes/clients.py`): computes the batch scores for the
active clients and sorts them ascending by `score` before returning. -/
def list_health_scores (snap : Snapshot) (active_clients : List Client) :
    List HealthScoreResult :=
  (compute_health_batch snap active_clients).mergeSort
    (fun a b => decide (a.score ≤ b.score))

/-! Concrete inputs used by witnesses, worked scenarios and
counterexamples. -/

/-- Scenario A's client: id 1, named `Alpha`, monthly budget 1000. -/
def scenario_a_client : Client := ⟨1, "Alpha", some 1000⟩

/-- Scenario A's backing data: last contact 2 days ago, 10 tasks all
completed, no overdue row, 6 recent digests, 700 of estimated cost, no
overdue follow-up row. -/
def scenario_a_snapshot : Snapshot :=
  ⟨fun _ => some 2,
   fun _ s => match s with | TaskStatus.completed => 10 | _ => 0,
   fun _ => none,
   fun _ => some 6,
   fun _ => some 700,
   fun _ => none⟩

/-- Scenario B's client: id 2, named `Beta`, no budget. -/
def scenario_b_client : Client := ⟨2, "Beta", none⟩

/-- Scenario B's backing data: last contact 45 days ago, no tasks, no
digests, no cost rows, 3 overdue follow-ups. -/
def scenario_b_snapshot : Snapshot :=
  ⟨fun _ => some 45,
   fun _ _ => 0,
   fun _ => none,
   fun _ => none,
   fun _ => none,
   fun _ => some 3⟩

/-- Two distinct clients that share id 1 but differ in name: the input
on which the batch path's last-wins id-keyed name map diverges from the
single path. -/
def dup_id_clients : List Client := [⟨1, "Alpha", none⟩, ⟨1, "Beta", none⟩]

/-- A backing store with no rows at all. -/
def empty_snapshot : Snapshot :=
  ⟨fun _ => none, fun _ _ => 0, fun _ => none, fun _ => none, fun _ => none, fun _ => none⟩

/-- Two clients with distinct ids, used by witnesses. -/
def demo_clients : List Client := [⟨1, "Alpha", some 1000⟩, ⟨2, "Beta", none⟩]

/-- A backing store with activity for client 1 and follow-up debt for
everyone else, used by witnesses. -/
def demo_snapshot : Snapshot :=
  ⟨fun cid => if cid = 1 then some 2 else some 45,
   fun cid s =>
     if cid = 1 ∧ s = TaskStatus.completed then 7
     else if cid = 1 ∧ s = TaskStatus.pending then 3
     else 0,
   fun cid => if cid = 1 then some 2 else none,
   fun cid => if cid = 1 then some 6 else none,
   fun cid => if cid = 1 then some 700 else none,
   fun cid => if cid = 1 then none else some 3⟩

/-! Helper lemmas shared by several claim theorems. -/

/-- A zero task total short-circuits the task factor to the neutral 15
before the overdue count is even read. -/
theorem task_score_of_total_zero (completed overdue : ℕ) :
    _task_score_from_counts 0 completed overdue = 15 := rfl

/-- When the budget truthiness-and-sign guard fails (budget `None`,
zero or negative), the profitability factor is the neutral 10 whatever
the cost argument is. -/
theorem profit_score_of_budget_not_positive (b : Option ℚ) (cost : ℚ)
    (hb : budget_is_positive b = false) :
    _profit_score_from_cost b cost = 10 := by
  cases b with
  | none => rfl
  | some q =>
    have hq : ¬ 0 < q := by
      simpa [budget_is_positive] using hb
    simp only [_profit_score_from_cost]
    rw [if_pos (le_of_not_lt hq)]

/-- The composite score built by `_build_result` is clamped into
`[0, 100]`. -/
theorem build_result_score_bounds (cid : ℤ) (nm : String)
    (comm tasks digests profit followups : ℤ) :
    0 ≤ (_build_result cid nm comm tasks digests profit followups).score ∧
    (_build_result cid nm comm tasks digests profit followups).score ≤ 100 := by
  simp only [_build_result, pymax, pymin]
  split_ifs <;> omega

/-- The id-keyed dict lookup finds some list element bearing the looked
up id whenever one exists. -/
theorem lookup_client_mem_id (clients : List Client) (c : Client)
    (hc : c ∈ clients) :
    ∃ x, lookup_client clients c.id = some x ∧ x ∈ clients ∧ x.id = c.id := by
  unfold lookup_client
  cases hfind : clients.reverse.find? (fun x => x.id == c.id) with
  | none =>
    exfalso
    have hnone := List.find?_eq_none.mp hfind c (List.mem_reverse.mpr hc)
    simp at hnone
  | some x =>
    refine ⟨x, rfl, List.mem_reverse.mp (List.mem_of_find?_eq_some hfind), ?_⟩
    have hpred := List.find?_some hfind
    simpa using hpred

/-- Under pairwise-distinct ids, the id-keyed dict lookup of a member's
id returns that member itself. -/
theorem lookup_client_self (clients : List Client)
    (hdistinct : clients.Pairwise (fun a b => a.id ≠ b.id))
    (c : Client) (hc : c ∈ clients) :
    lookup_client clients c.id = some c := by
  obtain ⟨x, hfind, hxmem, hxid⟩ := lookup_client_mem_id clients c hc
  have hsymm : Symmetric (fun a b : Client => a.id ≠ b.id) :=
    fun _ _ h e => h e.symm
  have hxc : x = c := by
    by_contra hne
    exact (hdistinct.forall hsymm) hxmem hc hne hxid
  rw [hfind, hxc]

/-- The batch evaluator is the assembly-loop body mapped over the input
list (both sides are `[]` for an empty input). -/
theorem compute_health_batch_eq_map (snap : Snapshot) (clients : List Client) :
    compute_health_batch snap clients = clients.map (batch_entry snap clients) := by
  cases clients with
  | nil => rfl
  | cons hd tl =>
    unfold compute_health_batch
    rw [if_neg (by simp)]

/-- C2: on inputs satisfying the data-model invariants (counts are
naturals, `completed ≤ total`, cost and budget non-negative) each factor
lies in its documented closed interval — communication in `[0, 25]`,
tasks in `[0, 25]` with no clamp in the task arithmetic, digests in
`[0, 15]`, profitability in `[0, 20]`, follow-ups in `[0, 15]` — and the
composite score of the assembler and of the single evaluator lies in
`[0, 100]`. -/
theorem health_factor_bounds :
    (∀ d : Option ℤ,
      0 ≤ _comm_score_from_days d ∧ _comm_score_from_days d ≤ 25) ∧
    (∀ total completed overdue : ℕ, completed ≤ total →
      0 ≤ _task_score_from_counts total completed overdue ∧
      _task_score_from_counts total completed overdue ≤ 25) ∧
    (∀ n : ℕ,
      0 ≤ _digest_score_from_count n ∧ _digest_score_from_count n ≤ 15) ∧
    (∀ b : Option ℚ, ∀ cost : ℚ, (∀ q, b = some q → 0 ≤ q) → 0 ≤ cost →
      0 ≤ _profit_score_from_cost b cost ∧ _profit_score_from_cost b cost ≤ 20) ∧
    (∀ n : ℕ,
      0 ≤ _followup_score_from_overdue n ∧ _followup_score_from_overdue n ≤ 15) ∧
    (∀ cid nm comm tasks digests profit followups,
      0 ≤ (_build_result cid nm comm tasks digests profit followups).score ∧
      (_build_result cid nm comm tasks digests profit followups).score ≤ 100) ∧
    (∀ snap client,
      0 ≤ (compute_health snap client).score ∧
      (compute_health snap client).score ≤ 100) := by
  refine ⟨?_, ?_, ?_, ?_, ?_, ?_, ?_⟩
  · intro d
    cases d with
    | none => exact ⟨by decide, by decide⟩
    | some v =>
      simp only [_comm_score_from_days]
      split_ifs <;> omega
  · intro total completed overdue hct
    rcases Nat.eq_zero_or_pos total with h0 | hpos
    · rw [h0, task_score_of_total_zero]
      omega
    · have hne : total ≠ 0 := Nat.pos_iff_ne_zero.mp hpos
      simp only [_task_score_from_counts, if_neg hne]
      set B := 20 * completed / total with hB
      have hb : B ≤ 20 := by
        rw [hB]
        calc 20 * completed / total
            ≤ 20 * total / total :=
              Nat.div_le_div_right (Nat.mul_le_mul_left 20 hct)
          _ = 20 := Nat.mul_div_cancel 20 hpos
      clear_value B
      simp only [pymax, pymin]
      split_ifs <;> omega
  · intro n
    simp only [_digest_score_from_count, pymin]
    split_ifs <;> omega
  · intro b cost _ _
    cases b with
    | none => norm_num [_profit_score_from_cost]
    | some q =>
      simp only [_profit_score_from_cost]
      split_ifs <;> norm_num
  · intro n
    simp only [_followup_score_from_overdue]
    split_ifs <;> omega
  · intro cid nm comm tasks digests profit followups
    exact build_result_score_bounds cid nm comm tasks digests profit followups
  · intro snap client
    exact build_result_score_bounds _ _ _ _ _ _ _

/-- C2 witness: the hypothesised conjuncts instantiated at concrete
inputs. -/
theorem health_factor_bounds_witness :
    (0 ≤ _task_score_from_counts 10 7 2 ∧ _task_score_from_counts 10 7 2 ≤ 25) ∧
    (0 ≤ _profit_score_from_cost none 0 ∧ _profit_score_from_cost none 0 ≤ 20) :=
  ⟨health_factor_bounds.2.1 10 7 2 (by decide),
   health_factor_bounds.2.2.2.1 none 0 (fun q h => by cases h) (le_refl 0)⟩

/-- C4: the result assembler returns `score = clamp(sum, 0, 100)` —
spelled with the Python `max`/`min` pair — classifies the clamped score
as `healthy` at 70 and above, `warning` at 40 and above, `at_risk`
otherwise, and copies its inputs into the output unchanged; it is a
pure function of its seven arguments. -/
theorem build_result_clamps_and_classifies (cid : ℤ) (nm : String)
    (comm tasks digests profit followups : ℤ) :
    (_build_result cid nm comm tasks digests profit followups).score =
      pymax 0 (pymin 100 (comm + tasks + digests + profit + followups)) ∧
    (_build_result cid nm comm tasks digests profit followups).risk_level =
      (if 70 ≤ (_build_result cid nm comm tasks digests profit followups).score
        then RiskLevel.healthy
        else if 40 ≤ (_build_result cid nm comm tasks digests profit followups).score
          then RiskLevel.warning
          else RiskLevel.at_risk) ∧
    (_build_result cid nm comm tasks digests profit followups).factors =
      ⟨comm, tasks, digests, profit, followups⟩ ∧
    (_build_result cid nm comm tasks digests profit followups).client_id = cid ∧
    (_build_result cid nm comm tasks digests profit followups).client_name = nm :=
  ⟨rfl, rfl, rfl, rfl, rfl⟩

/-- C5: the communication factor is the spec's step function with each
band's upper bound inclusive — absent contact gives 0, then 25 up to 3
days, 20 up to 7, 15 up to 14, 8 up to 30, and 0 beyond — and in
particular 3 days gives 25 while 4 days gives 20. -/
theorem comm_score_step_bands :
    _comm_score_from_days none = 0 ∧
    (∀ d : ℤ, d ≤ 3 → _comm_score_from_days (some d) = 25) ∧
    (∀ d : ℤ, 3 < d → d ≤ 7 → _comm_score_from_days (some d) = 20) ∧
    (∀ d : ℤ, 7 < d → d ≤ 14 → _comm_score_from_days (some d) = 15) ∧
    (∀ d : ℤ, 14 < d → d ≤ 30 → _comm_score_from_days (some d) = 8) ∧
    (∀ d : ℤ, 30 < d → _comm_score_from_days (some d) = 0) ∧
    _comm_score_from_days (some 3) = 25 ∧
    _comm_score_from_days (some 4) = 20 := by
  refine ⟨rfl, ?_, ?_, ?_, ?_, ?_, by decide, by decide⟩ <;>
    · intro d
      simp only [_comm_score_from_days]
      intros
      split_ifs <;> omega

/-- C5 witness: the banded equalities instantiated at the boundary. -/
theorem comm_score_step_bands_witness :
    _comm_score_from_days (some 2) = 25 ∧ _comm_score_from_days (some 6) = 20 :=
  ⟨comm_score_step_bands.2.1 2 (by decide),
   comm_score_step_bands.2.2.1 6 (by decide) (by decide)⟩

/-- C6: the communication factor is non-increasing in non-negative
days-since-contact, the profitability factor is non-increasing in cost
for a fixed positive budget (hence in the cost/budget ratio), and the
follow-up factor is non-increasing in the overdue-follow-up count. -/
theorem factor_monotonicity :
    (∀ a b : ℤ, 0 ≤ a → a ≤ b →
      _comm_score_from_days (some b) ≤ _comm_score_from_days (some a)) ∧
    (∀ budget : ℚ, 0 < budget → ∀ c1 c2 : ℚ, c1 ≤ c2 →
      _profit_score_from_cost (some budget) c2 ≤
        _profit_score_from_cost (some budget) c1) ∧
    (∀ m n : ℕ, m ≤ n →
      _followup_score_from_overdue n ≤ _followup_score_from_overdue m) := by
  refine ⟨?_, ?_, ?_⟩
  · intro a b _ hab
    simp only [_comm_score_from_days]
    split_ifs <;> omega
  · intro budget hpos c1 c2 hc
    simp only [_profit_score_from_cost]
    rw [if_neg (not_le.mpr hpos), if_neg (not_le.mpr hpos)]
    have hdiv : c1 / budget ≤ c2 / budget :=
      (div_le_div_iff_of_pos_right hpos).mpr hc
    split_ifs <;> linarith
  · intro m n hmn
    simp only [_followup_score_from_overdue]
    split_ifs <;> omega

/-- C6 witness: each monotonicity conjunct at a concrete pair. -/
theorem factor_monotonicity_witness :
    _comm_score_from_days (some 5) ≤ _comm_score_from_days (some 2) ∧
    _profit_score_from_cost (some 1) 1 ≤ _profit_score_from_cost (some 1) 0 ∧
    _followup_score_from_overdue 3 ≤ _followup_score_from_overdue 1 :=
  ⟨factor_monotonicity.1 2 5 (by decide) (by decide),
   factor_monotonicity.2.1 1 one_pos 0 1 zero_le_one,
   factor_monotonicity.2.2 1 3 (by decide)⟩

/-- C7: a zero task total forces the task factor to exactly 15 whatever
the completed and overdue counts are, and an absent, zero or negative
monthly budget forces the profitability factor to exactly 10 whatever
the estimated cost is. -/
theorem neutral_default_factors :
    (∀ completed overdue : ℕ,
      _task_score_from_counts 0 completed overdue = 15) ∧
    (∀ cost : ℚ, _profit_score_from_cost none cost = 10) ∧
    (∀ b : ℚ, b ≤ 0 → ∀ cost : ℚ,
      _profit_score_from_cost (some b) cost = 10) := by
  refine ⟨task_score_of_total_zero, fun _ => rfl, ?_⟩
  intro b hb cost
  exact profit_score_of_budget_not_positive (some b) cost
    (by simp [budget_is_positive, not_lt.mpr hb])

/-- C7 witness: the budget-not-positive conjunct at budget 0. -/
theorem neutral_default_factors_witness :
    _profit_score_from_cost (some 0) 700 = 10 :=
  neutral_default_factors.2.2 0 (le_refl 0) 700

/-- C3 counterexample: on the malformed aggregate `total = 1,
completed = 2, overdue = 0` the engine raises no data-integrity error —
the task factor silently computes the ordinary score 45 from the
corrupt counts, which even exceeds the factor's documented 25-point
budget. -/
theorem task_score_corrupt_aggregate_counterexample :
    _task_score_from_counts 1 2 0 = 45 ∧
    25 < _task_score_from_counts 1 2 0 := by decide

/-- C3 amended: the engine performs no malformed-aggregate detection;
on any corrupt task aggregate with `0 < total < completed` (and no
overdue tasks) the task factor just evaluates its arithmetic,
`floor(20 * completed / total) + 5`, and the resulting ordinary score is
at or above the factor's 25-point maximum instead of an error. -/
theorem task_score_no_integrity_detection (total completed : ℕ)
    (h1 : 0 < total) (h2 : total < completed) :
    _task_score_from_counts total completed 0 =
      ((20 * completed / total : ℕ) : ℤ) + 5 ∧
    25 ≤ _task_score_from_counts total completed 0 := by
  have hne : total ≠ 0 := Nat.pos_iff_ne_zero.mp h1
  have heq : _task_score_from_counts total completed 0 =
      ((20 * completed / total : ℕ) : ℤ) + 5 := by
    simp [_task_score_from_counts, if_neg hne]
  refine ⟨heq, ?_⟩
  have h20 : 20 ≤ 20 * completed / total := by
    rw [Nat.le_div_iff_mul_le h1]
    calc 20 * total = total * 20 := Nat.mul_comm _ _
      _ ≤ completed * 20 := Nat.mul_le_mul_right 20 (Nat.le_of_lt h2)
      _ = 20 * completed := Nat.mul_comm _ _
  rw [heq]
  omega

/-- C3 witness: the amended theorem applied at the corrupt aggregate
`total = 1, completed = 2`. -/
theorem task_score_no_integrity_detection_witness :
    25 ≤ _task_score_from_counts 1 2 0 :=
  (task_score_no_integrity_detection 1 2 (by decide) (by decide)).2

/-- C8: the two worked scenarios of the spec, run through the single
evaluator against backing data realising their signals, produce exactly
the stated factor vectors, composite scores and risk levels. -/
theorem scenario_pipeline_outputs :
    compute_health scenario_a_snapshot scenario_a_client =
      ⟨1, "Alpha", 100, ⟨25, 25, 15, 20, 15⟩, RiskLevel.healthy⟩ ∧
    compute_health scenario_b_snapshot scenario_b_client =
      ⟨2, "Beta", 25, ⟨0, 15, 0, 10, 0⟩, RiskLevel.at_risk⟩ := by
  constructor
  · norm_num [compute_health, scenario_a_snapshot, scenario_a_client,
      _comm_score_from_days, _task_score_from_counts, _digest_score_from_count,
      _profit_score_from_cost, _followup_score_from_overdue, _build_result,
      total_task_count, budget_is_positive, pymax, pymin]
  · decide

/-- C9: the `/health-scores` endpoint returns the batch results sorted
ascending by `score` (worst health first): its output is
pairwise-ordered by score and is a permutation of the batch evaluator's
output. -/
theorem health_scores_listing_sorted (snap : Snapshot)
    (active_clients : List Client) :
    List.Pairwise (fun a b : HealthScoreResult => a.score ≤ b.score)
      (list_health_scores snap active_clients) ∧
    (list_health_scores snap active_clients).Perm
      (compute_health_batch snap active_clients) := by
  unfold list_health_scores
  constructor
  · refine List.Pairwise.imp ?_
      (List.sorted_mergeSort ?_ ?_ (compute_health_batch snap active_clients))
    · intro a b h
      exact of_decide_eq_true h
    · intro a b c hab hbc
      simp only [decide_eq_true_eq] at *
      exact le_trans hab hbc
    · intro a b
      simp only [Bool.or_eq_true, decide_eq_true_eq]
      exact le_total a.score b.score
  · exact List.mergeSort_perm _ _

/-- C10: for a client list with pairwise-distinct ids the batch
evaluator returns one result per input client in input order — same
length, i-th `client_id` equal to the i-th input's id and i-th
`client_name` equal to that client's name — and the empty input yields
the empty output with zero aggregate queries issued. -/
theorem batch_preserves_length_order_and_empty (snap : Snapshot)
    (clients : List Client)
    (hdistinct : clients.Pairwise (fun a b => a.id ≠ b.id)) :
    (compute_health_batch snap clients).length = clients.length ∧
    (∀ i : ℕ,
      ((compute_health_batch snap clients)[i]?).map HealthScoreResult.client_id =
        (clients[i]?).map Client.id ∧
      ((compute_health_batch snap clients)[i]?).map HealthScoreResult.client_name =
        (clients[i]?).map Client.name) ∧
    compute_health_batch snap ([] : List Client) = [] ∧
    batch_query_count ([] : List Client) = 0 := by
  refine ⟨?_, ?_, rfl, rfl⟩
  · rw [compute_health_batch_eq_map, List.length_map]
  · intro i
    rw [compute_health_batch_eq_map, List.getElem?_map]
    cases hi : clients[i]? with
    | none => simp
    | some c =>
      have hc : c ∈ clients := List.getElem?_mem hi
      have hrep : lookup_client clients c.id = some c :=
        lookup_client_self clients hdistinct c hc
      constructor
      · simp only [Option.map_some']
        rfl
      · simp only [Option.map_some']
        show some (batch_entry snap clients c).client_name = some c.name
        simp only [batch_entry, hrep, Option.getD_some]
        rfl

/-- C10 witness: the theorem applied to two clients with distinct ids;
the second output carries the second client's name. -/
theorem batch_preserves_length_order_and_empty_witness :
    ((compute_health_batch demo_snapshot demo_clients)[1]?).map
        HealthScoreResult.client_name =
      ((demo_clients)[1]?).map Client.name :=
  ((batch_preserves_length_order_and_empty demo_snapshot demo_clients
    (by decide)).2.1 1).2

/-- C1 counterexample: on the two distinct clients of `dup_id_clients`,
which share id 1 under different names, the batch path's last-wins
id-keyed name map labels both results `Beta`, so the batch output is
not a permutation of the per-client single-path outputs — the claimed
order-insensitive element-for-element equality fails for this finite
list of clients. -/
theorem batch_single_equivalence_counterexample :
    ¬ (compute_health_batch empty_snapshot dup_id_clients).Perm
      (dup_id_clients.map (compute_health empty_snapshot)) := by decide

/-- C1 amended: whenever equal ids imply equal name and budget across
the input list (in particular for any list drawn from the data model,
where `id` is the client's identity), the batch evaluator agrees with
the single evaluator element for element in input order — so a fortiori
as multisets — for every backing-store snapshot; neither the single
path's skipping of the cost fetch on a non-positive budget nor the
batch path's zero/absent defaults for missing map rows changes any
result. -/
theorem batch_matches_single (snap : Snapshot) (clients : List Client)
    (hid : ∀ a ∈ clients, ∀ b ∈ clients, a.id = b.id →
      a.name = b.name ∧ a.monthly_budget = b.monthly_budget) :
    compute_health_batch snap clients = clients.map (compute_health snap) := by
  rw [compute_health_batch_eq_map]
  apply List.map_congr_left
  intro c hc
  obtain ⟨x, hfind, hxmem, hxid⟩ := lookup_client_mem_id clients c hc
  obtain ⟨hname, hbud⟩ := hid x hxmem c hc hxid
  have htask :
      _task_score_from_counts (total_task_count (snap.task_status_counts c.id))
        (snap.task_status_counts c.id TaskStatus.completed)
        ((snap.overdue_row c.id).getD 0) =
      _task_score_from_counts (total_task_count (snap.task_status_counts c.id))
        (snap.task_status_counts c.id TaskStatus.completed)
        (if 0 < total_task_count (snap.task_status_counts c.id) then
          (snap.overdue_row c.id).getD 0 else 0) := by
    rcases Nat.eq_zero_or_pos
      (total_task_count (snap.task_status_counts c.id)) with h0 | hpos
    · rw [h0, task_score_of_total_zero, task_score_of_total_zero]
    · rw [if_pos hpos]
  have hprofit :
      _profit_score_from_cost c.monthly_budget ((snap.cost_row c.id).getD 0) =
      _profit_score_from_cost c.monthly_budget
        (if budget_is_positive c.monthly_budget then
          (snap.cost_row c.id).getD 0 else 0) := by
    by_cases hbp : budget_is_positive c.monthly_budget = true
    · rw [if_pos hbp]
    · rw [if_neg hbp]
      have hbf : budget_is_positive c.monthly_budget = false := by
        simpa using hbp
      rw [profit_score_of_budget_not_positive _ _ hbf,
        profit_score_of_budget_not_positive _ _ hbf]
  simp only [batch_entry, compute_health, hfind, Option.getD_some, hname, hbud]
  rw [htask, hprofit]

/-- C1 witness: the amended equivalence applied to two clients with
distinct ids over a snapshot exercising every signal. -/
theorem batch_matches_single_witness :
    compute_health_batch demo_snapshot demo_clients =
      demo_clients.map (compute_health demo_snapshot) :=
  batch_matches_single demo_snapshot demo_clients (by decide)

end ClientHealth
